import Mathlib

/-!
# Verification of the solana-mcp memecoin scoring engine

Shallow embedding of the deterministic scoring functions of the
`tony-42069/solana-mcp` repository, together with proofs and refutations of
the specified properties.

Conventions of the embedding:
* JavaScript numbers in the pure scoring formulas are modelled as exact
  rationals (`ℚ`); the functions that use `Math.log10` are modelled over the
  reals (`ℝ`) with `Real.logb 10`.
* `Math.round` is rounding half towards positive infinity, `⌊x + 1/2⌋`.
* `Math.min` / `Math.max` are `min` / `max`.
* Human-readable warning strings are modelled as an inductive type of
  warnings carrying the interpolated data; the exact English sentence is
  presentation only.
* `async` functions whose only effects are external lookups are modelled as
  pure functions of the lookup results; a failing lookup (the `catch`
  branch) is an `Option.none` argument.
-/

/-- JavaScript `Math.round` on exact rational values: round half up. -/
def mathRound (x : ℚ) : ℤ := ⌊x + 1 / 2⌋

/-- Rounding a dollar amount to cents, `Math.round(amount * 100) / 100`. -/
def roundToCents (x : ℚ) : ℚ := (mathRound (x * 100) : ℚ) / 100

/-! ## src/utils/safetyUtils.js -/

/-- The record of token safety metrics passed to `calculateSafetyScore` and
`generateWarnings` in `src/utils/safetyUtils.js`. -/
structure SafetyMetrics where
  mintAuthorityExists : Bool
  freezeAuthorityExists : Bool
  topHolderPercentage : ℚ
  holderCount : ℚ
  hasLiquidity : Bool
deriving DecidableEq, Repr

/-- `calculateSafetyScore` (src/utils/safetyUtils.js, lines 144-174): start
from 100, apply the five conditional deductions in source order, clamp to
[0, 100]. -/
def calculateSafetyScore (metrics : SafetyMetrics) : ℚ :=
  max 0 (min 100
    (100
      - (if metrics.mintAuthorityExists then 20 else 0)
      - (if metrics.freezeAuthorityExists then 10 else 0)
      - (if 50 < metrics.topHolderPercentage then
          min 40 (metrics.topHolderPercentage - 50) else 0)
      - (if metrics.holderCount < 100 then
          min 20 ((100 - metrics.holderCount) / 5) else 0)
      - (if metrics.hasLiquidity then 0 else 30)))

/-- The warnings emitted by the safety analysis and the rugpull scan,
abstracted from their English sentences: each constructor carries the data
interpolated into the corresponding message string. -/
inductive Warning
  | mintAuthority
  | freezeAuthority
  | topHolder (pct : ℚ)
  | lowHolders (count : ℚ)
  | noLiquidity
  | scamSimilar
  | analysisFailed
deriving DecidableEq, Repr

/-- `generateWarnings` (src/utils/safetyUtils.js, lines 181-205): one
warning per triggered condition, in source order.  Note the holder-count
condition is `holderCount < 50`, not the `< 100` used by the score
deduction. -/
def generateWarnings (metrics : SafetyMetrics) : List Warning :=
  (if metrics.mintAuthorityExists then [Warning.mintAuthority] else []) ++
  (if metrics.freezeAuthorityExists then [Warning.freezeAuthority] else []) ++
  (if 50 < metrics.topHolderPercentage then
    [Warning.topHolder metrics.topHolderPercentage] else []) ++
  (if metrics.holderCount < 50 then
    [Warning.lowHolders metrics.holderCount] else []) ++
  (if metrics.hasLiquidity then [] else [Warning.noLiquidity])

/-- The number of deduction conditions of `calculateSafetyScore` that fire
on a given metrics record (the five conditions of lines 148-170 of
src/utils/safetyUtils.js). -/
def countTriggeredDeductions (metrics : SafetyMetrics) : ℕ :=
  (if metrics.mintAuthorityExists then 1 else 0) +
  (if metrics.freezeAuthorityExists then 1 else 0) +
  (if 50 < metrics.topHolderPercentage then 1 else 0) +
  (if metrics.holderCount < 100 then 1 else 0) +
  (if metrics.hasLiquidity then 0 else 1)

/-- The number of warning conditions of `generateWarnings` that fire: same
as the deduction conditions except that the holder-count threshold is 50. -/
def countWarningConditions (metrics : SafetyMetrics) : ℕ :=
  (if metrics.mintAuthorityExists then 1 else 0) +
  (if metrics.freezeAuthorityExists then 1 else 0) +
  (if 50 < metrics.topHolderPercentage then 1 else 0) +
  (if metrics.holderCount < 50 then 1 else 0) +
  (if metrics.hasLiquidity then 0 else 1)

/-- The result record of `getMint` as used by `analyzeTokenSafety`. -/
structure MintInfo where
  mintAuthority : Option String
  freezeAuthority : Option String
  supply : ℕ
  decimals : ℕ
deriving DecidableEq, Repr

/-- A token program account as read by `analyzeTokenSafety`: public key and
the 64-bit balance at offset 64 of the account data. -/
structure TokenAccount where
  pubkey : String
  balance : ℕ
deriving DecidableEq, Repr

/-- The data produced by the on-chain lookups inside the `try` block of
`analyzeTokenSafety`: the mint info, the token program accounts and the
result of `checkTokenLiquidity`. -/
structure ChainLookup where
  mintInfo : MintInfo
  programAccounts : List TokenAccount
  hasLiquidity : Bool
deriving DecidableEq, Repr

/-- The `details` object of the result of `analyzeTokenSafety`. -/
structure SafetyDetails where
  mintAuthorityExists : Bool
  freezeAuthorityExists : Bool
  topHolderPercentage : ℚ
  holderCount : ℚ
  hasLiquidity : Bool
  supplySize : ℚ
deriving DecidableEq, Repr

/-- The result of `analyzeTokenSafety`. -/
structure SafetyAnalysis where
  tokenAddress : String
  safetyScore : ℚ
  details : SafetyDetails
  warnings : List Warning
deriving DecidableEq, Repr

/-- `analyzeTokenSafety` (src/utils/safetyUtils.js, lines 11-111), as a pure
function of the on-chain lookup outcome: `some` is the `try` branch with the
fetched data, `none` is the `catch` branch (any failing lookup). -/
def analyzeTokenSafety (tokenAddress : String) (lookup : Option ChainLookup) :
    SafetyAnalysis :=
  match lookup with
  | some chain =>
    let mintAuthorityExists := chain.mintInfo.mintAuthority.isSome
    let freezeAuthorityExists := chain.mintInfo.freezeAuthority.isSome
    let totalSupply : ℚ := chain.mintInfo.supply
    let holderCount : ℚ := chain.programAccounts.length
    let topHolderPercentage : ℚ :=
      if 0 < chain.programAccounts.length ∧ 0 < totalSupply then
        match chain.programAccounts.mergeSort
            (fun a b => decide ((b.balance : ℚ) ≤ (a.balance : ℚ))) with
        | [] => 0
        | top :: _ => (top.balance : ℚ) / totalSupply * 100
      else 0
    let metrics : SafetyMetrics :=
      ⟨mintAuthorityExists, freezeAuthorityExists, topHolderPercentage,
        holderCount, chain.hasLiquidity⟩
    { tokenAddress := tokenAddress
      safetyScore := calculateSafetyScore metrics
      details :=
        ⟨mintAuthorityExists, freezeAuthorityExists, topHolderPercentage,
          holderCount, chain.hasLiquidity,
          totalSupply / 10 ^ chain.mintInfo.decimals⟩
      warnings := generateWarnings metrics }
  | none =>
    { tokenAddress := tokenAddress
      safetyScore := 0
      details := ⟨true, true, 100, 0, false, 0⟩
      warnings := [Warning.analysisFailed] }

/-! ## src/functions/getHypeScore.js — runRugpullScan part -/

/-- The combined safety score of the rugpull scan (src/functions/getHypeScore.js,
line 197): `safetyAnalysis.safetyScore * 0.7 + (100 - scamScore) * 0.3`. -/
def combinedSafetyScore (contractScore scamScore : ℚ) : ℚ :=
  contractScore * (7 / 10) + (100 - scamScore) * (3 / 10)

/-- The risk level of the rugpull scan (src/functions/getHypeScore.js,
lines 200-209). -/
def riskLevel (safetyScore : ℚ) : String :=
  if 80 ≤ safetyScore then "Low"
  else if 50 ≤ safetyScore then "Medium"
  else if 20 ≤ safetyScore then "High"
  else "Extreme"

/-- The warnings array of the rugpull scan result (src/functions/getHypeScore.js,
lines 248-251): the safety-analysis warnings plus one extra warning exactly
when the scam similarity score exceeds 30. -/
def rugpullScanWarnings (metrics : SafetyMetrics) (scamScore : ℚ) :
    List Warning :=
  generateWarnings metrics ++
    (if 30 < scamScore then [Warning.scamSimilar] else [])

/-! ## Claim C1 -/

/-- C1: for every safety-metrics record the safety score lies in [0, 100];
it is monotonically non-increasing in `topHolderPercentage` above 50 (all
other metrics fixed), and monotonically non-increasing in
`100 - holderCount` for holder counts below 100 (all other metrics
fixed). -/
theorem calculateSafetyScore_bounds_and_monotone
    (m : SafetyMetrics) (p₁ p₂ h₁ h₂ : ℚ)
    (hp₁ : 50 < p₁) (hp : p₁ ≤ p₂) (hh₁ : h₁ < 100) (hh : h₂ ≤ h₁) :
    (0 ≤ calculateSafetyScore m ∧ calculateSafetyScore m ≤ 100) ∧
    calculateSafetyScore { m with topHolderPercentage := p₂ } ≤
      calculateSafetyScore { m with topHolderPercentage := p₁ } ∧
    calculateSafetyScore { m with holderCount := h₂ } ≤
      calculateSafetyScore { m with holderCount := h₁ } := by
  refine ⟨⟨le_max_left _ _, max_le (by norm_num) (min_le_left _ _)⟩, ?_, ?_⟩
  · unfold calculateSafetyScore
    have hp₂ : 50 < p₂ := lt_of_lt_of_le hp₁ hp
    simp only [if_pos hp₁, if_pos hp₂]
    gcongr
  · unfold calculateSafetyScore
    have hh₂ : h₂ < 100 := lt_of_le_of_lt hh hh₁
    simp only [if_pos hh₁, if_pos hh₂]
    gcongr

/-- Witness for C1 at a concrete input. -/
theorem calculateSafetyScore_bounds_and_monotone_witness :
    (0 ≤ calculateSafetyScore ⟨true, false, 60, 200, true⟩ ∧
      calculateSafetyScore ⟨true, false, 60, 200, true⟩ ≤ 100) ∧
    calculateSafetyScore ⟨true, false, 70, 200, true⟩ ≤
      calculateSafetyScore ⟨true, false, 60, 200, true⟩ ∧
    calculateSafetyScore ⟨true, false, 60, 10, true⟩ ≤
      calculateSafetyScore ⟨true, false, 60, 50, true⟩ :=
  calculateSafetyScore_bounds_and_monotone ⟨true, false, 60, 200, true⟩
    60 70 50 10 (by norm_num) (by norm_num) (by norm_num) (by norm_num)

/-! ## Claim C8 -/

/-- C8: the fixed scenario (mint authority, no freeze authority, top holder
60%, 200 holders, liquidity) scores 70; combining contract score 70 with
scam similarity 0 gives 79, which rounds to 79 and is tier "Medium". -/
theorem safetyScore_scenario_seventy :
    calculateSafetyScore ⟨true, false, 60, 200, true⟩ = 70 ∧
    combinedSafetyScore 70 0 = 79 ∧
    mathRound (combinedSafetyScore 70 0) = 79 ∧
    riskLevel (combinedSafetyScore 70 0) = "Medium" := by
  refine ⟨?_, ?_, ?_, ?_⟩ <;>
    norm_num [calculateSafetyScore, combinedSafetyScore, mathRound, riskLevel]

/-! ## Claim C4 -/

/-- C4 counterexample: at 75 holders (no other condition firing) the score
deduction for `holderCount < 100` fires, but `generateWarnings` emits no
warning, because its holder condition is `holderCount < 50`. -/
theorem generateWarnings_misses_holder_deduction :
    generateWarnings ⟨false, false, 0, 75, true⟩ = [] ∧
    countTriggeredDeductions ⟨false, false, 0, 75, true⟩ = 1 ∧
    (generateWarnings ⟨false, false, 0, 75, true⟩).length ≠
      countTriggeredDeductions ⟨false, false, 0, 75, true⟩ := by
  refine ⟨?_, ?_, ?_⟩ <;>
    norm_num [generateWarnings, countTriggeredDeductions]

/-- C4 amended: the safety analysis emits exactly one warning per triggered
warning condition, where the holder-count condition is `holderCount < 50`
(not the `< 100` of the score deduction); the rugpull scan appends exactly
one extra warning exactly when the scam similarity score exceeds 30. -/
theorem generateWarnings_one_per_condition (m : SafetyMetrics) (scam : ℚ) :
    (generateWarnings m).length = countWarningConditions m ∧
    (rugpullScanWarnings m scam).length =
      countWarningConditions m + (if 30 < scam then 1 else 0) ∧
    (Warning.mintAuthority ∈ generateWarnings m ↔ m.mintAuthorityExists) ∧
    (Warning.freezeAuthority ∈ generateWarnings m ↔ m.freezeAuthorityExists) ∧
    (Warning.topHolder m.topHolderPercentage ∈ generateWarnings m ↔
      50 < m.topHolderPercentage) ∧
    (Warning.lowHolders m.holderCount ∈ generateWarnings m ↔
      m.holderCount < 50) ∧
    (Warning.noLiquidity ∈ generateWarnings m ↔ ¬m.hasLiquidity) ∧
    (Warning.scamSimilar ∈ rugpullScanWarnings m scam ↔ 30 < scam) := by
  obtain ⟨ma, fa, thp, hc, hl⟩ := m
  unfold rugpullScanWarnings generateWarnings countWarningConditions
  dsimp only
  cases ma <;> cases fa <;> cases hl <;>
    split_ifs <;> simp_all [List.mem_append]

/-! ## Claim C6 -/

/-- C6: when the on-chain lookup inside `analyzeTokenSafety` fails (the
`catch` branch), the function returns, rather than throws, the maximally
pessimistic result: safety score 0, both authorities assumed present, top
holder 100%, zero holders, no liquidity. -/
theorem analyzeTokenSafety_failure_pessimistic (addr : String) :
    analyzeTokenSafety addr none =
      { tokenAddress := addr
        safetyScore := 0
        details := ⟨true, true, 100, 0, false, 0⟩
        warnings := [Warning.analysisFailed] } := rfl

/-! ## src/utils/socialUtils.js — calculateMemeCorrelation -/

/-- JavaScript `String.prototype.toLowerCase`, character by character. -/
def lowerString (s : String) : String := String.mk (s.data.map Char.toLower)

/-- A JavaScript word character, the `\w` class: letters, digits, `_`. -/
def isWordChar (c : Char) : Bool := c.isAlphanum || c = '_'

/-- Splits a character list into its maximal runs of word characters; the
accumulator holds the current run reversed. -/
def wordRuns : List Char → List Char → List (List Char)
  | [], acc => if acc.isEmpty then [] else [acc.reverse]
  | c :: cs, acc =>
    if isWordChar c then wordRuns cs (c :: acc)
    else if acc.isEmpty then wordRuns cs [] else acc.reverse :: wordRuns cs []

/-- JavaScript `s.split(/\W+/).filter(Boolean)`: the maximal word-character
runs of `s`. -/
def wordsOf (s : String) : List String := (wordRuns s.data []).map String.mk

/-- JavaScript `hay.includes(needle)` on character lists: does `needle`
occur contiguously in `hay`? -/
def listStartsWith : List Char → List Char → Bool
  | [], _ => true
  | _ :: _, [] => false
  | p :: ps, c :: cs => p == c && listStartsWith ps cs

/-- Scan for an occurrence of `needle` at any position of the second
list. -/
def listContainsSub (needle : List Char) : List Char → Bool
  | [] => needle.isEmpty
  | c :: cs => listStartsWith needle (c :: cs) || listContainsSub needle cs

/-- JavaScript `hay.includes(needle)` on strings. -/
def strIncludes (hay needle : String) : Bool := listContainsSub needle.data hay.data

/-- An element of the `trendingMemes` input of `calculateMemeCorrelation`. -/
structure TrendingMeme where
  name : String
  source : String
  date : String
deriving DecidableEq, Repr

/-- An entry pushed onto `correlations` by `calculateMemeCorrelation`. -/
structure CorrelationEntry where
  meme : String
  correlation : ℚ
  source : String
  date : String
deriving DecidableEq, Repr

/-- The per-meme correlation computed by the loop body of
`calculateMemeCorrelation` (src/utils/socialUtils.js, lines 398-417):
simplified Jaccard overlap of the word lists, +0.3 if the lowercased meme
name contains the lowercased token symbol, capped at 1. -/
def memeCorrelationValue (tokenNameLC tokenSymbolLC rawMemeName : String) : ℚ :=
  let memeName := lowerString rawMemeName
  let tokenWords := wordsOf tokenNameLC
  let memeWords := wordsOf memeName
  let intersection := (tokenWords.filter (fun word => memeWords.contains word)).length
  let union := (tokenWords ++ memeWords).dedup.length
  let correlation : ℚ := if 0 < intersection then (intersection : ℚ) / (union : ℚ) else 0
  let correlation := if strIncludes memeName tokenSymbolLC then correlation + 3 / 10 else correlation
  min correlation 1

/-- `calculateMemeCorrelation` (src/utils/socialUtils.js, lines 392-429):
keep the entries whose correlation exceeds 0.1 and sort them by correlation
descending (stable, as the JavaScript array sort). -/
def calculateMemeCorrelation (tokenName tokenSymbol : String)
    (trendingMemes : List TrendingMeme) : List CorrelationEntry :=
  let tokenNameLC := lowerString tokenName
  let tokenSymbolLC := lowerString tokenSymbol
  let correlations := trendingMemes.filterMap (fun meme =>
    let correlation := memeCorrelationValue tokenNameLC tokenSymbolLC meme.name
    if 1 / 10 < correlation then
      some ⟨meme.name, correlation, meme.source, meme.date⟩
    else none)
  correlations.mergeSort (fun a b => decide (b.correlation ≤ a.correlation))

/-- Helper: `filterMap` keeps every element when the function is `some` on
all of them. -/
theorem filterMap_length_all_some {α β : Type} (f : α → Option β) (l : List α)
    (h : ∀ x ∈ l, (f x).isSome) : (l.filterMap f).length = l.length := by
  induction l with
  | nil => rfl
  | cons a t ih =>
    obtain ⟨b, hb⟩ := Option.isSome_iff_exists.mp (h a (List.mem_cons_self a t))
    simp [List.filterMap_cons, hb,
      ih (fun x hx => h x (List.mem_cons_of_mem _ hx))]

/-- Helper: the empty needle occurs in every haystack. -/
theorem listContainsSub_nil_left (l : List Char) : listContainsSub [] l = true := by
  cases l <;> simp [listContainsSub, listStartsWith]

/-- Helper: the Jaccard part of the per-meme correlation is non-negative. -/
theorem jaccard_part_nonneg (t m : List String) :
    (0 : ℚ) ≤ (if 0 < (t.filter (fun word => m.contains word)).length then
      ((t.filter (fun word => m.contains word)).length : ℚ) /
        ((t ++ m).dedup.length : ℚ)
    else 0) := by
  split
  · positivity
  · exact le_refl 0

/-- Helper: every correlation entry produced by `calculateMemeCorrelation`
arises from a meme of the input list with the per-meme correlation value,
and that value exceeds 0.1. -/
theorem mem_calculateMemeCorrelation {tokenName tokenSymbol : String}
    {memes : List TrendingMeme} {e : CorrelationEntry}
    (he : e ∈ calculateMemeCorrelation tokenName tokenSymbol memes) :
    ∃ meme ∈ memes,
      e = ⟨meme.name,
            memeCorrelationValue (lowerString tokenName)
              (lowerString tokenSymbol) meme.name, meme.source, meme.date⟩ ∧
      1 / 10 < e.correlation := by
  simp only [calculateMemeCorrelation, List.mem_mergeSort,
    List.mem_filterMap] at he
  obtain ⟨meme, hmem, hfa⟩ := he
  by_cases hlt :
      1 / 10 < memeCorrelationValue (lowerString tokenName)
        (lowerString tokenSymbol) meme.name
  · rw [if_pos hlt, Option.some_inj] at hfa
    exact ⟨meme, hmem, hfa.symm, hfa ▸ hlt⟩
  · rw [if_neg hlt] at hfa
    exact absurd hfa (Option.noConfusion)

/-! ## Claim C7 -/

/-- C7 counterexample: token with empty name and symbol `"!!!"` against the
meme named `"!!!"`: the symbol equals the meme name and both names tokenize
to the same (empty) word set, yet the correlation is 0.3, not 1, because the
Jaccard part is 0 when there are no word characters. -/
theorem memeCorrelation_selfmatch_not_one :
    wordsOf (lowerString "") = wordsOf (lowerString "!!!") ∧
    calculateMemeCorrelation "" "!!!" [⟨"!!!", "kym", "d0"⟩] =
      [⟨"!!!", 3 / 10, "kym", "d0"⟩] ∧
    ((3 : ℚ) / 10) ≠ 1 := by
  refine ⟨by decide, ?_, by norm_num⟩
  have hval : memeCorrelationValue (lowerString "") (lowerString "!!!") "!!!" =
      3 / 10 := by
    have h1 : strIncludes (lowerString "!!!") (lowerString "!!!") = true := by decide
    have h2 : (wordsOf (lowerString "")).filter
        (fun word => (wordsOf (lowerString "!!!")).contains word) = [] := by decide
    simp only [memeCorrelationValue, h1, h2, if_true]
    norm_num
  simp only [calculateMemeCorrelation, List.filterMap_cons, List.filterMap_nil]
  rw [hval]
  norm_num

/-- C7 amended: every returned entry has correlation in (0.1, 1]; the
returned list is sorted descending by correlation; and a token whose symbol
equals the meme name and whose name tokenizes to the same word set as the
meme name — provided that word set is non-empty — gets correlation exactly
1. -/
theorem calculateMemeCorrelation_bounds_sorted_selfmatch
    (tokenName tokenSymbol : String) (memes : List TrendingMeme) :
    (∀ e ∈ calculateMemeCorrelation tokenName tokenSymbol memes,
      1 / 10 < e.correlation ∧ e.correlation ≤ 1) ∧
    (calculateMemeCorrelation tokenName tokenSymbol memes).Pairwise
      (fun a b => b.correlation ≤ a.correlation) ∧
    (∀ meme : TrendingMeme, tokenSymbol = meme.name →
      (∀ w, w ∈ wordsOf (lowerString tokenName) ↔
        w ∈ wordsOf (lowerString meme.name)) →
      wordsOf (lowerString tokenName) ≠ [] →
      memeCorrelationValue (lowerString tokenName) (lowerString tokenSymbol)
        meme.name = 1) := by
  refine ⟨?_, ?_, ?_⟩
  · intro e he
    obtain ⟨m, _, hedef, hgt⟩ := mem_calculateMemeCorrelation he
    refine ⟨hgt, ?_⟩
    rw [hedef]
    exact min_le_right _ _
  · have hs := @List.sorted_mergeSort CorrelationEntry
      (fun a b => decide (b.correlation ≤ a.correlation))
      (fun a b c hab hbc => by
        simp only [decide_eq_true_eq] at *; exact le_trans hbc hab)
      (fun a b => by
        simp only [Bool.or_eq_true, decide_eq_true_eq]
        exact le_total b.correlation a.correlation)
      ((memes.filterMap (fun meme =>
        let correlation := memeCorrelationValue (lowerString tokenName)
          (lowerString tokenSymbol) meme.name
        if 1 / 10 < correlation then
          some ⟨meme.name, correlation, meme.source, meme.date⟩
        else none)))
    refine List.Pairwise.imp ?_ hs
    intro a b hab
    simpa using hab
  · intro meme hsym hwords hne
    simp only [memeCorrelationValue]
    have hfilter : (wordsOf (lowerString tokenName)).filter
        (fun word => (wordsOf (lowerString meme.name)).contains word) =
        wordsOf (lowerString tokenName) := by
      rw [List.filter_eq_self]
      intro w hw
      simpa using (hwords w).mp hw
    have hunion : (wordsOf (lowerString tokenName) ++
        wordsOf (lowerString meme.name)).dedup.length ≤
        (wordsOf (lowerString tokenName)).length := by
      calc (wordsOf (lowerString tokenName) ++
            wordsOf (lowerString meme.name)).dedup.length
          = (wordsOf (lowerString tokenName) ++
            wordsOf (lowerString meme.name)).toFinset.card := by
            rw [List.card_toFinset]
        _ = (wordsOf (lowerString tokenName)).toFinset.card := by
            congr 1
            ext w
            simp only [List.mem_toFinset, List.mem_append]
            constructor
            · rintro (h | h)
              · exact h
              · exact (hwords w).mpr h
            · exact Or.inl
        _ ≤ (wordsOf (lowerString tokenName)).length :=
            List.toFinset_card_le _
    have hposlen : 0 < (wordsOf (lowerString tokenName)).length :=
      List.length_pos.mpr hne
    have hposu : 0 < (wordsOf (lowerString tokenName) ++
        wordsOf (lowerString meme.name)).dedup.length := by
      rw [List.length_pos]
      intro hnil
      have h0 := (List.dedup_eq_nil _).mp hnil
      simp only [List.append_eq_nil] at h0
      exact hne h0.1
    rw [hfilter, if_pos hposlen]
    set L : ℕ := (wordsOf (lowerString tokenName)).length
    set U : ℕ := (wordsOf (lowerString tokenName) ++
      wordsOf (lowerString meme.name)).dedup.length
    have hbase : (1 : ℚ) ≤ (L : ℚ) / (U : ℚ) := by
      rw [le_div_iff (by exact_mod_cast hposu)]
      simpa using (Nat.cast_le (α := ℚ)).mpr hunion
    split
    · exact min_eq_right (by linarith)
    · exact min_eq_right hbase

/-- Witness for C7 at a concrete input: the self-match part evaluated for
the token "doge"/"doge" against the meme named "doge". -/
theorem calculateMemeCorrelation_bounds_sorted_selfmatch_witness :
    memeCorrelationValue (lowerString "doge") (lowerString "doge") "doge" = 1 :=
  (calculateMemeCorrelation_bounds_sorted_selfmatch "doge" "doge"
    [⟨"doge", "kym", "d0"⟩]).2.2 ⟨"doge", "kym", "d0"⟩ rfl (fun w => Iff.rfl)
    (by decide)

/-! ## Claim C9 -/

/-- C9: with an empty token symbol the +0.3 substring bonus applies to every
meme (the empty string is a substring of everything), so every meme yields a
returned entry and every returned correlation is at least 0.3. -/
theorem calculateMemeCorrelation_empty_symbol_bonus
    (tokenName : String) (memes : List TrendingMeme)
    (h : ∀ m ∈ memes, m.name ≠ "") :
    (calculateMemeCorrelation tokenName "" memes).length = memes.length ∧
    ∀ e ∈ calculateMemeCorrelation tokenName "" memes,
      3 / 10 ≤ e.correlation := by
  have hval : ∀ raw : String, 3 / 10 ≤
      memeCorrelationValue (lowerString tokenName) (lowerString "") raw := by
    intro raw
    simp only [memeCorrelationValue]
    have hinc : strIncludes (lowerString raw) (lowerString "") = true := by
      simpa [strIncludes, lowerString] using
        listContainsSub_nil_left (lowerString raw).data
    rw [if_pos hinc]
    have hbase := jaccard_part_nonneg (wordsOf (lowerString tokenName))
      (wordsOf (lowerString raw))
    exact le_min (by linarith) (by norm_num)
  constructor
  · rw [calculateMemeCorrelation]
    simp only [List.length_mergeSort]
    refine filterMap_length_all_some _ _ ?_
    intro m _
    rw [if_pos (lt_of_lt_of_le (by norm_num) (hval m.name))]
    rfl
  · intro e he
    obtain ⟨m, _, hedef, _⟩ := mem_calculateMemeCorrelation he
    rw [hedef]
    exact hval m.name

/-- Witness for C9 at a concrete input. -/
theorem calculateMemeCorrelation_empty_symbol_bonus_witness :
    (calculateMemeCorrelation "zyx" "" [⟨"doge", "kym", "d0"⟩]).length =
      ([⟨"doge", "kym", "d0"⟩] : List TrendingMeme).length ∧
    ∀ e ∈ calculateMemeCorrelation "zyx" "" [⟨"doge", "kym", "d0"⟩],
      3 / 10 ≤ e.correlation :=
  calculateMemeCorrelation_empty_symbol_bonus "zyx" [⟨"doge", "kym", "d0"⟩]
    (by decide)

/-! ## src/functions/getPortfolioStrategy.js — generatePortfolioAllocation -/

/-- The allocation parameters selected by risk tolerance
(src/functions/getPortfolioStrategy.js, lines 244-284). -/
structure AllocationParameters where
  maxTokens : ℕ
  estabRatio : ℚ
  newRatio : ℚ
  specRatio : ℚ
  minSafetyScore : ℚ
deriving DecidableEq, Repr

/-- The `switch (riskTolerance)` of `generatePortfolioAllocation`: the four
named presets; `"moderate"` and any unrecognized string keep the defaults. -/
def allocationParameters (riskTolerance : String) : AllocationParameters :=
  if riskTolerance = "conservative" then ⟨3, 8 / 10, 2 / 10, 0, 70⟩
  else if riskTolerance = "aggressive" then ⟨7, 4 / 10, 4 / 10, 2 / 10, 40⟩
  else if riskTolerance = "very_aggressive" then ⟨10, 2 / 10, 5 / 10, 3 / 10, 30⟩
  else ⟨5, 6 / 10, 3 / 10, 1 / 10, 60⟩

/-- A processed token as consumed by `generatePortfolioAllocation`: only the
fields the allocation reads. -/
structure ProcessedToken where
  address : String
  name : String
  symbol : String
  safetyScore : ℚ
  opportunityScore : ℚ
deriving DecidableEq, Repr

/-- An entry of the caller's `existingPortfolio` parameter. -/
structure PortfolioPosition where
  address : String
  amount : ℚ
deriving DecidableEq, Repr

/-- An element of the `allocations` array built by
`generatePortfolioAllocation`; the `reasoning` string is fixed canned text
per category and is omitted. -/
structure Allocation where
  token : ProcessedToken
  amount : ℚ
  category : String
deriving DecidableEq, Repr

/-- The `established` bucket (lines 287-289): filter by minimum safety
score, truncate to `max(1, floor(maxTokens * 0.4))`. -/
def establishedBucket (ps : AllocationParameters)
    (tokens : List ProcessedToken) : List ProcessedToken :=
  (tokens.filter (fun t => decide (ps.minSafetyScore ≤ t.safetyScore))).take
    (max 1 (⌊(ps.maxTokens : ℚ) * (4 / 10)⌋.toNat))

/-- The `newTokens` bucket (lines 291-294): safety in
`[0.7 * minSafetyScore, minSafetyScore)`, sorted by opportunity score
descending, truncated to `max(1, floor(maxTokens * 0.4))`. -/
def newBucket (ps : AllocationParameters)
    (tokens : List ProcessedToken) : List ProcessedToken :=
  ((tokens.filter (fun t =>
      decide (ps.minSafetyScore * (7 / 10) ≤ t.safetyScore ∧
        t.safetyScore < ps.minSafetyScore))).mergeSort
    (fun a b => decide (b.opportunityScore ≤ a.opportunityScore))).take
    (max 1 (⌊(ps.maxTokens : ℚ) * (4 / 10)⌋.toNat))

/-- The `speculative` bucket (lines 296-299): safety below
`0.7 * minSafetyScore`, sorted by opportunity score descending, truncated to
`max(1, floor(maxTokens * 0.2))`. -/
def speculativeBucket (ps : AllocationParameters)
    (tokens : List ProcessedToken) : List ProcessedToken :=
  ((tokens.filter (fun t =>
      decide (t.safetyScore < ps.minSafetyScore * (7 / 10)))).mergeSort
    (fun a b => decide (b.opportunityScore ≤ a.opportunityScore))).take
    (max 1 (⌊(ps.maxTokens : ℚ) * (2 / 10)⌋.toNat))

/-- One bucket's contribution to `allocations` (the three `forEach` loops,
lines 318-360): position-decayed weight, amount rounded to cents. -/
def bucketAllocations (bucketAllocation : ℚ) (bucket : List ProcessedToken)
    (category : String) : List Allocation :=
  bucket.enum.map (fun p =>
    let weight : ℚ := 1 - ((p.1 : ℚ) / (bucket.length : ℚ)) * (5 / 10)
    let amount := bucketAllocation * weight / (bucket.length : ℚ)
    ⟨p.2, roundToCents amount, category⟩)

/-- The `allocations` array of `generatePortfolioAllocation`
(src/functions/getPortfolioStrategy.js, lines 242-360): bucket the tokens,
drop the ones already held, allocate `investmentSize * estabRatio` and
`investmentSize * newRatio` to the first two buckets and the remainder to
the speculative one. -/
def generatePortfolioAllocation (processedTokens : List ProcessedToken)
    (riskTolerance : String) (investmentSize : ℚ)
    (existingPortfolio : List PortfolioPosition) : List Allocation :=
  let ps := allocationParameters riskTolerance
  let existingAddresses := existingPortfolio.map (fun p => p.address)
  let filteredEstablished := (establishedBucket ps processedTokens).filter
    (fun t => !(existingAddresses.contains t.address))
  let filteredNew := (newBucket ps processedTokens).filter
    (fun t => !(existingAddresses.contains t.address))
  let filteredSpeculative := (speculativeBucket ps processedTokens).filter
    (fun t => !(existingAddresses.contains t.address))
  let estabAllocation := investmentSize * ps.estabRatio
  let newAllocation := investmentSize * ps.newRatio
  let remainingAllocation := investmentSize - estabAllocation - newAllocation
  bucketAllocations estabAllocation filteredEstablished "established" ++
  bucketAllocations newAllocation filteredNew "new" ++
  bucketAllocations remainingAllocation filteredSpeculative "speculative"

/-- Helper: rounding to cents adds at most half a cent. -/
theorem roundToCents_le (x : ℚ) : roundToCents x ≤ x + 1 / 200 := by
  unfold roundToCents mathRound
  rw [div_le_iff (by norm_num : (0 : ℚ) < 100)]
  calc ((⌊x * 100 + 1 / 2⌋ : ℤ) : ℚ) ≤ x * 100 + 1 / 2 := Int.floor_le _
    _ = (x + 1 / 200) * 100 := by ring

/-- Helper: a bucket contributes one allocation per token. -/
theorem bucketAllocations_length (alloc : ℚ) (l : List ProcessedToken)
    (cat : String) : (bucketAllocations alloc l cat).length = l.length := by
  simp [bucketAllocations]

/-- Helper: a bucket's rounded amounts sum to at most the bucket allocation
plus half a cent per token. -/
theorem bucketAllocations_sum_le (alloc : ℚ) (l : List ProcessedToken)
    (cat : String) (h : 0 ≤ alloc) :
    ((bucketAllocations alloc l cat).map (fun a => a.amount)).sum ≤
      alloc + (l.length : ℚ) / 200 := by
  rcases eq_or_ne l [] with rfl | hne
  · simpa [bucketAllocations] using h
  · have hn : 0 < l.length := List.length_pos.mpr hne
    have hnq : (0 : ℚ) < (l.length : ℚ) := by exact_mod_cast hn
    have hb : ∀ x ∈ (bucketAllocations alloc l cat).map (fun a => a.amount),
        x ≤ alloc / (l.length : ℚ) + 1 / 200 := by
      intro x hx
      simp only [bucketAllocations, List.map_map, List.mem_map,
        Function.comp] at hx
      obtain ⟨p, _, hval⟩ := hx
      rw [← hval]
      refine le_trans (roundToCents_le _) ?_
      have hw : alloc * (1 - ((p.1 : ℚ) / (l.length : ℚ)) * (5 / 10)) ≤ alloc := by
        refine mul_le_of_le_one_right h ?_
        have : (0 : ℚ) ≤ ((p.1 : ℚ) / (l.length : ℚ)) * (5 / 10) := by positivity
        linarith
      have := (div_le_div_iff_of_pos_right hnq).mpr hw
      linarith
    refine le_trans (List.sum_le_card_nsmul _ _ hb) ?_
    have hlen : ((bucketAllocations alloc l cat).map (fun a => a.amount)).length =
        l.length := by
      rw [List.length_map, bucketAllocations_length]
    rw [hlen, nsmul_eq_mul]
    rw [mul_add, mul_div_cancel₀ _ (ne_of_gt hnq)]
    have : (l.length : ℚ) * (1 / 200) = (l.length : ℚ) / 200 := by ring
    linarith [this.le]

/-- Helper: the ratios of every risk-tolerance preset are non-negative and
the established and new ratios sum to at most 1. -/
theorem allocationParameters_ratios (riskTolerance : String) :
    0 ≤ (allocationParameters riskTolerance).estabRatio ∧
    0 ≤ (allocationParameters riskTolerance).newRatio ∧
    (allocationParameters riskTolerance).estabRatio +
      (allocationParameters riskTolerance).newRatio ≤ 1 := by
  unfold allocationParameters
  split_ifs <;> norm_num

/-! ## Claim C3 -/

/-- C3 amended: the sum of the rounded allocation amounts can exceed the
investment size by at most half a cent per allocation (and the unrounded
amounts sum to at most the investment size). -/
theorem generatePortfolioAllocation_sum_le (tokens : List ProcessedToken)
    (riskTolerance : String) (investmentSize : ℚ)
    (existing : List PortfolioPosition) (hinv : 0 ≤ investmentSize) :
    ((generatePortfolioAllocation tokens riskTolerance investmentSize
        existing).map (fun a => a.amount)).sum ≤
      investmentSize +
        ((generatePortfolioAllocation tokens riskTolerance investmentSize
          existing).length : ℚ) / 200 := by
  obtain ⟨he, hn, hen⟩ := allocationParameters_ratios riskTolerance
  simp only [generatePortfolioAllocation, List.map_append, List.sum_append,
    List.length_append]
  have h1 := bucketAllocations_sum_le
    (investmentSize * (allocationParameters riskTolerance).estabRatio)
    ((establishedBucket (allocationParameters riskTolerance) tokens).filter
      (fun t => !((existing.map (fun p => p.address)).contains t.address)))
    "established" (mul_nonneg hinv he)
  have h2 := bucketAllocations_sum_le
    (investmentSize * (allocationParameters riskTolerance).newRatio)
    ((newBucket (allocationParameters riskTolerance) tokens).filter
      (fun t => !((existing.map (fun p => p.address)).contains t.address)))
    "new" (mul_nonneg hinv hn)
  have h3 := bucketAllocations_sum_le
    (investmentSize -
      investmentSize * (allocationParameters riskTolerance).estabRatio -
      investmentSize * (allocationParameters riskTolerance).newRatio)
    ((speculativeBucket (allocationParameters riskTolerance) tokens).filter
      (fun t => !((existing.map (fun p => p.address)).contains t.address)))
    "speculative" (by nlinarith)
  rw [bucketAllocations_length, bucketAllocations_length,
    bucketAllocations_length]
  push_cast
  linarith

/-- Witness for C3 (amended) at a concrete input. -/
theorem generatePortfolioAllocation_sum_le_witness :
    ((generatePortfolioAllocation
        [⟨"a", "A", "A", 60, 0⟩, ⟨"b", "B", "B", 50, 0⟩, ⟨"c", "C", "C", 0, 0⟩]
        "moderate" (5 / 100) []).map (fun a => a.amount)).sum ≤
      5 / 100 +
        ((generatePortfolioAllocation
          [⟨"a", "A", "A", 60, 0⟩, ⟨"b", "B", "B", 50, 0⟩, ⟨"c", "C", "C", 0, 0⟩]
          "moderate" (5 / 100) []).length : ℚ) / 200 :=
  generatePortfolioAllocation_sum_le
    [⟨"a", "A", "A", 60, 0⟩, ⟨"b", "B", "B", 50, 0⟩, ⟨"c", "C", "C", 0, 0⟩]
    "moderate" (5 / 100) [] (by norm_num)

/-- C3 counterexample: with investment size $0.05 under the "moderate"
preset and one token per bucket, the three rounded amounts are $0.03, $0.02
and $0.01, summing to $0.06 > $0.05: rounding can push the total above the
investment size. -/
theorem allocation_sum_exceeds_investment :
    ((generatePortfolioAllocation
        [⟨"a", "A", "A", 60, 0⟩, ⟨"b", "B", "B", 50, 0⟩, ⟨"c", "C", "C", 0, 0⟩]
        "moderate" (5 / 100) []).map (fun a => a.amount)).sum = 6 / 100 ∧
    ¬ ((generatePortfolioAllocation
        [⟨"a", "A", "A", 60, 0⟩, ⟨"b", "B", "B", 50, 0⟩, ⟨"c", "C", "C", 0, 0⟩]
        "moderate" (5 / 100) []).map (fun a => a.amount)).sum ≤ 5 / 100 := by
  have hps : allocationParameters "moderate" = ⟨5, 6 / 10, 3 / 10, 1 / 10, 60⟩ := by
    simp [allocationParameters]
  have hfloor4 : (⌊((5 : ℕ) : ℚ) * (4 / 10)⌋).toNat = 2 := by
    have h : ⌊((5 : ℕ) : ℚ) * (4 / 10)⌋ = 2 := by norm_num
    rw [h]; rfl
  have hfloor2 : (⌊((5 : ℕ) : ℚ) * (2 / 10)⌋).toNat = 1 := by
    have h : ⌊((5 : ℕ) : ℚ) * (2 / 10)⌋ = 1 := by norm_num
    rw [h]; rfl
  have h1 : establishedBucket ⟨5, 6 / 10, 3 / 10, 1 / 10, 60⟩
      [⟨"a", "A", "A", 60, 0⟩, ⟨"b", "B", "B", 50, 0⟩, ⟨"c", "C", "C", 0, 0⟩] =
      [⟨"a", "A", "A", 60, 0⟩] := by
    norm_num [establishedBucket, hfloor4, List.filter_cons]
  have h2 : newBucket ⟨5, 6 / 10, 3 / 10, 1 / 10, 60⟩
      [⟨"a", "A", "A", 60, 0⟩, ⟨"b", "B", "B", 50, 0⟩, ⟨"c", "C", "C", 0, 0⟩] =
      [⟨"b", "B", "B", 50, 0⟩] := by
    norm_num [newBucket, hfloor4, List.filter_cons]
  have h3 : speculativeBucket ⟨5, 6 / 10, 3 / 10, 1 / 10, 60⟩
      [⟨"a", "A", "A", 60, 0⟩, ⟨"b", "B", "B", 50, 0⟩, ⟨"c", "C", "C", 0, 0⟩] =
      [⟨"c", "C", "C", 0, 0⟩] := by
    norm_num [speculativeBucket, hfloor2, List.filter_cons]
  have hsum : ((generatePortfolioAllocation
      [⟨"a", "A", "A", 60, 0⟩, ⟨"b", "B", "B", 50, 0⟩, ⟨"c", "C", "C", 0, 0⟩]
      "moderate" (5 / 100) []).map (fun a => a.amount)).sum = 6 / 100 := by
    simp only [generatePortfolioAllocation, hps, h1, h2, h3]
    norm_num [bucketAllocations, List.enum, List.enumFrom, roundToCents,
      mathRound, List.filter_cons, List.contains]
  exact ⟨hsum, by rw [hsum]; norm_num⟩

/-! ## Claim C5 -/

/-- Helper: under the "conservative" preset, a single token of safety score
0 fills the speculative bucket. -/
theorem conservative_single_token_speculative :
    speculativeBucket ⟨3, 8 / 10, 2 / 10, 0, 70⟩
      [⟨"c", "C", "C", 0, 0⟩] = [⟨"c", "C", "C", 0, 0⟩] := by
  have hfloor2 : (⌊((3 : ℕ) : ℚ) * (2 / 10)⌋).toNat = 0 := by
    have h : ⌊((3 : ℕ) : ℚ) * (2 / 10)⌋ = 0 := by norm_num
    rw [h]; rfl
  norm_num [speculativeBucket, hfloor2, List.filter_cons]

/-- Helper: the full conservative allocation over that single token: one
speculative entry of amount 0. -/
theorem conservative_single_token_allocations :
    generatePortfolioAllocation [⟨"c", "C", "C", 0, 0⟩] "conservative" 100 [] =
      [⟨⟨"c", "C", "C", 0, 0⟩, 0, "speculative"⟩] := by
  have hps : allocationParameters "conservative" = ⟨3, 8 / 10, 2 / 10, 0, 70⟩ := by
    simp [allocationParameters]
  have hfloor4 : (⌊((3 : ℕ) : ℚ) * (4 / 10)⌋).toNat = 1 := by
    have h : ⌊((3 : ℕ) : ℚ) * (4 / 10)⌋ = 1 := by norm_num
    rw [h]; rfl
  have h1 : establishedBucket ⟨3, 8 / 10, 2 / 10, 0, 70⟩
      [⟨"c", "C", "C", 0, 0⟩] = [] := by
    norm_num [establishedBucket, hfloor4, List.filter_cons]
  have h2 : newBucket ⟨3, 8 / 10, 2 / 10, 0, 70⟩
      [⟨"c", "C", "C", 0, 0⟩] = [] := by
    norm_num [newBucket, hfloor4, List.filter_cons]
  simp only [generatePortfolioAllocation, hps, h1, h2,
    conservative_single_token_speculative]
  norm_num [bucketAllocations, List.enum, List.enumFrom, roundToCents,
    mathRound, List.filter_cons, List.contains]

/-- C5 counterexample: under the "conservative" preset a token with safety
score 0 still lands in the speculative bucket (the slice size is
`max(1, floor(3*0.2)) = 1`), so the bucket is not empty and the allocations
list contains a "speculative" entry — its amount is 0, but the entry
exists. -/
theorem conservative_speculative_bucket_nonempty :
    speculativeBucket (allocationParameters "conservative")
      [⟨"c", "C", "C", 0, 0⟩] = [⟨"c", "C", "C", 0, 0⟩] ∧
    generatePortfolioAllocation [⟨"c", "C", "C", 0, 0⟩] "conservative" 100 [] =
      [⟨⟨"c", "C", "C", 0, 0⟩, 0, "speculative"⟩] := by
  have hps : allocationParameters "conservative" = ⟨3, 8 / 10, 2 / 10, 0, 70⟩ := by
    simp [allocationParameters]
  exact ⟨by rw [hps]; exact conservative_single_token_speculative,
    conservative_single_token_allocations⟩

/-- C5 amended: under the "conservative" preset every allocation of
category "speculative" has amount exactly 0 (the speculative ratio is 0, so
the remaining allocation is 0), although the speculative bucket itself may
be non-empty. -/
theorem conservative_speculative_amount_zero
    (tokens : List ProcessedToken) (investmentSize : ℚ)
    (existing : List PortfolioPosition) (hinv : 0 ≤ investmentSize) :
    ∀ a ∈ generatePortfolioAllocation tokens "conservative" investmentSize
      existing, a.category = "speculative" → a.amount = 0 := by
  intro a ha hcat
  have hps : allocationParameters "conservative" = ⟨3, 8 / 10, 2 / 10, 0, 70⟩ := by
    simp [allocationParameters]
  simp only [generatePortfolioAllocation, hps, List.mem_append] at ha
  have hzero : ∀ (l : List ProcessedToken) (cat : String),
      a ∈ bucketAllocations
        (investmentSize - investmentSize * (8 / 10) -
          investmentSize * (2 / 10)) l cat → a.amount = 0 := by
    intro l cat hmem
    simp only [bucketAllocations, List.mem_map] at hmem
    obtain ⟨p, _, hdef⟩ := hmem
    have hrem : investmentSize - investmentSize * (8 / 10) -
        investmentSize * (2 / 10) = 0 := by ring
    rw [← hdef]
    simp only [hrem, zero_mul, zero_div]
    norm_num [roundToCents, mathRound]
  rcases ha with (h | h) | h
  · exfalso
    simp only [bucketAllocations, List.mem_map] at h
    obtain ⟨p, _, hdef⟩ := h
    rw [← hdef] at hcat
    simp at hcat
  · exfalso
    simp only [bucketAllocations, List.mem_map] at h
    obtain ⟨p, _, hdef⟩ := h
    rw [← hdef] at hcat
    simp at hcat
  · exact hzero _ _ h

/-- Witness for C5 (amended) at a concrete input: the one speculative
allocation of the single-token conservative portfolio has amount 0. -/
theorem conservative_speculative_amount_zero_witness :
    Allocation.amount ⟨⟨"c", "C", "C", 0, 0⟩, 0, "speculative"⟩ = 0 :=
  conservative_speculative_amount_zero [⟨"c", "C", "C", 0, 0⟩] 100 []
    (by norm_num) ⟨⟨"c", "C", "C", 0, 0⟩, 0, "speculative"⟩
    (by rw [conservative_single_token_allocations]; exact List.mem_singleton_self _)
    rfl

/-! ## src/functions/getHypeScore.js — hype score handler

`Math.log10` is transcendental, so this part of the engine is modelled over
the reals with `Real.logb 10`. -/

/-- JavaScript `Math.round` on real values: round half up. -/
noncomputable def mathRoundR (x : ℝ) : ℤ := ⌊x + 1 / 2⌋

/-- The twitter aggregate returned by `searchTwitterMentions`. -/
structure TwitterData where
  count : ℕ
  sentiment : ℝ
  engagement : ℝ

/-- The reddit aggregate returned by `crawlForTokenMentions`. -/
structure RedditData where
  count : ℕ
  sentiment : ℝ

/-- The telegram aggregate returned by `crawlForTokenMentions`. -/
structure TelegramData where
  count : ℕ
  sentiment : ℝ

/-- Total social engagement (src/functions/getHypeScore.js, lines 34-36):
twitter engagement plus 5 per reddit mention plus 3 per telegram mention. -/
noncomputable def socialEngagement (tw : TwitterData) (re : RedditData)
    (te : TelegramData) : ℝ :=
  tw.engagement + (re.count : ℝ) * 5 + (te.count : ℝ) * 3

/-- The weighted sentiment numerator (lines 43-59): each platform's
sentiment counts only when that platform has mentions. -/
noncomputable def weightedSentiment (tw : TwitterData) (re : RedditData)
    (te : TelegramData) : ℝ :=
  (if 0 < tw.count then tw.sentiment * (5 / 10) else 0) +
  (if 0 < re.count then re.sentiment * (3 / 10) else 0) +
  (if 0 < te.count then te.sentiment * (2 / 10) else 0)

/-- The total of the active platform weights (lines 43-59). -/
noncomputable def totalWeight (tw : TwitterData) (re : RedditData)
    (te : TelegramData) : ℝ :=
  (if 0 < tw.count then (5 / 10 : ℝ) else 0) +
  (if 0 < re.count then (3 / 10 : ℝ) else 0) +
  (if 0 < te.count then (2 / 10 : ℝ) else 0)

/-- `averageSentiment` (line 61): the weighted average, 0 when no platform
has mentions. -/
noncomputable def averageSentiment (tw : TwitterData) (re : RedditData)
    (te : TelegramData) : ℝ :=
  if 0 < totalWeight tw re te then
    weightedSentiment tw re te / totalWeight tw re te
  else 0

/-- `ageFactor` (line 67): `max(0.5, min(1.5, 2 - ageInDays/30))`. -/
noncomputable def ageFactor (ageInDays : ℝ) : ℝ :=
  max (5 / 10) (min (15 / 10) (2 - ageInDays / 30))

/-- `volumeFactor` (line 70): `min(2, max(0.2, log10(volume24h+1)/4))`. -/
noncomputable def volumeFactor (volume24h : ℝ) : ℝ :=
  min 2 (max (2 / 10) (Real.logb 10 (volume24h + 1) / 4))

/-- `priceChangeFactor` (line 73): `min(2, max(0.5, (pc+100)/100))`. -/
noncomputable def priceChangeFactor (priceChange24h : ℝ) : ℝ :=
  min 2 (max (5 / 10) ((priceChange24h + 100) / 100))

/-- `socialEngagementFactor` (line 76): `min(2, max(0.2, log10(e+1)/2))`. -/
noncomputable def socialEngagementFactor (engagement : ℝ) : ℝ :=
  min 2 (max (2 / 10) (Real.logb 10 (engagement + 1) / 2))

/-- `sentimentFactor` (line 79): maps sentiment −1..1 to 0.5..1.5. -/
noncomputable def sentimentFactor (avgSentiment : ℝ) : ℝ :=
  avgSentiment * (5 / 10) + 1

/-- The hype score (src/functions/getHypeScore.js, lines 82-88):
`Math.min(100, Math.round(20 * ageFactor * volumeFactor *
priceChangeFactor * socialEngagementFactor * sentimentFactor))`. -/
noncomputable def hypeScore (ageInDays volume24h priceChange24h : ℝ)
    (tw : TwitterData) (re : RedditData) (te : TelegramData) : ℤ :=
  min 100 (mathRoundR
    (20 * ageFactor ageInDays *
      volumeFactor volume24h *
      priceChangeFactor priceChange24h *
      socialEngagementFactor (socialEngagement tw re te) *
      sentimentFactor (averageSentiment tw re te)))

/-- Helper: a quotient with numerator bounded in absolute value by the
positive denominator lies in [-1, 1]. -/
theorem div_within_one {w W : ℝ} (hW : 0 < W) (hlo : -W ≤ w) (hhi : w ≤ W) :
    -1 ≤ w / W ∧ w / W ≤ 1 := by
  constructor
  · rw [le_div_iff₀ hW]; linarith
  · rw [div_le_iff₀ hW]; linarith

/-- Helper: the weighted average sentiment stays in [-1, 1] when every
platform sentiment does. -/
theorem averageSentiment_bounds (tw : TwitterData) (re : RedditData)
    (te : TelegramData)
    (h1 : -1 ≤ tw.sentiment) (h2 : tw.sentiment ≤ 1)
    (h3 : -1 ≤ re.sentiment) (h4 : re.sentiment ≤ 1)
    (h5 : -1 ≤ te.sentiment) (h6 : te.sentiment ≤ 1) :
    -1 ≤ averageSentiment tw re te ∧ averageSentiment tw re te ≤ 1 := by
  unfold averageSentiment weightedSentiment totalWeight
  split_ifs <;>
    first
      | exact div_within_one (by linarith) (by linarith) (by linarith)
      | norm_num

/-- Helper: the age factor is clamped to [0.5, 1.5]. -/
theorem ageFactor_bounds (d : ℝ) :
    5 / 10 ≤ ageFactor d ∧ ageFactor d ≤ 15 / 10 :=
  ⟨le_max_left _ _, max_le (by norm_num) (min_le_left _ _)⟩

/-- Helper: the volume factor is clamped to [0.2, 2]. -/
theorem volumeFactor_bounds (v : ℝ) :
    2 / 10 ≤ volumeFactor v ∧ volumeFactor v ≤ 2 :=
  ⟨le_min (by norm_num) (le_max_left _ _), min_le_left _ _⟩

/-- Helper: the price-change factor is clamped to [0.5, 2]. -/
theorem priceChangeFactor_bounds (pc : ℝ) :
    5 / 10 ≤ priceChangeFactor pc ∧ priceChangeFactor pc ≤ 2 :=
  ⟨le_min (by norm_num) (le_max_left _ _), min_le_left _ _⟩

/-- Helper: the social engagement factor is clamped to [0.2, 2]. -/
theorem socialEngagementFactor_bounds (e : ℝ) :
    2 / 10 ≤ socialEngagementFactor e ∧ socialEngagementFactor e ≤ 2 :=
  ⟨le_min (by norm_num) (le_max_left _ _), min_le_left _ _⟩

/-- Helper: at zero volume the volume factor is its floor 0.2. -/
theorem volumeFactor_zero : volumeFactor 0 = 2 / 10 := by
  unfold volumeFactor
  rw [zero_add, Real.logb_one]
  norm_num [max_def, min_def]

/-- Helper: at zero engagement the social factor is its floor 0.2. -/
theorem socialEngagementFactor_zero : socialEngagementFactor 0 = 2 / 10 := by
  unfold socialEngagementFactor
  rw [zero_add, Real.logb_one]
  norm_num [max_def, min_def]

/-- Helper: at zero price change the price factor is 1 (not 0.5). -/
theorem priceChangeFactor_zero : priceChangeFactor 0 = 1 := by
  unfold priceChangeFactor
  norm_num [max_def, min_def]

/-! ## Claim C2 -/

/-- C2 counterexample: a brand-new token (age 0) whose social signals and
market metrics are all zero gets hype score 1, not 0: with zero price
change the price factor is 1 (not its 0.5 floor), so the product is
`20 * 1.5 * 0.2 * 1 * 0.2 * 1 = 1.2`, which rounds to 1. -/
theorem hypeScore_zero_input_new_token :
    hypeScore 0 0 0 ⟨0, 0, 0⟩ ⟨0, 0⟩ ⟨0, 0⟩ = 1 ∧ (1 : ℤ) ≠ 0 := by
  refine ⟨?_, by norm_num⟩
  have hse : socialEngagement ⟨0, 0, 0⟩ ⟨0, 0⟩ ⟨0, 0⟩ = 0 := by
    simp [socialEngagement]
  have havg : averageSentiment ⟨0, 0, 0⟩ ⟨0, 0⟩ ⟨0, 0⟩ = 0 := by
    unfold averageSentiment totalWeight
    norm_num
  have hage : ageFactor 0 = 15 / 10 := by
    unfold ageFactor
    norm_num [min_def, max_def]
  unfold hypeScore
  rw [hse, havg, hage, volumeFactor_zero, socialEngagementFactor_zero,
    priceChangeFactor_zero]
  have hsf : sentimentFactor 0 = 1 := by unfold sentimentFactor; norm_num
  rw [hsf]
  have hfl : mathRoundR (20 * (15 / 10) * (2 / 10) * 1 * (2 / 10) * 1) = 1 := by
    unfold mathRoundR
    rw [Int.floor_eq_iff]
    constructor <;> norm_num
  rw [hfl]
  norm_num

/-- C2 amended: the hype score is always an integer in [0, 100] (given
per-platform sentiments in [-1, 1]); for all-zero social/market input the
score is `round(0.8 * ageFactor)`, which is 1 for tokens of age up to 41.25
days and 0 only for older tokens — not 0 unconditionally. -/
theorem hypeScore_range_and_zero_input
    (age vol pc : ℝ) (tw : TwitterData) (re : RedditData) (te : TelegramData)
    (h1 : -1 ≤ tw.sentiment) (h2 : tw.sentiment ≤ 1)
    (h3 : -1 ≤ re.sentiment) (h4 : re.sentiment ≤ 1)
    (h5 : -1 ≤ te.sentiment) (h6 : te.sentiment ≤ 1) :
    (0 ≤ hypeScore age vol pc tw re te ∧
      hypeScore age vol pc tw re te ≤ 100) ∧
    (tw.count = 0 → re.count = 0 → te.count = 0 → tw.engagement = 0 →
      vol = 0 → pc = 0 →
      hypeScore age vol pc tw re te = if age ≤ 165 / 4 then 1 else 0) := by
  obtain ⟨ha1, ha2⟩ := averageSentiment_bounds tw re te h1 h2 h3 h4 h5 h6
  have hA := ageFactor_bounds age
  have hV := volumeFactor_bounds vol
  have hP := priceChangeFactor_bounds pc
  have hS := socialEngagementFactor_bounds (socialEngagement tw re te)
  have hSF : 5 / 10 ≤ sentimentFactor (averageSentiment tw re te) := by
    unfold sentimentFactor; linarith
  constructor
  · constructor
    · unfold hypeScore
      refine le_min (by norm_num) ?_
      unfold mathRoundR
      rw [Int.le_floor]
      have c1 : (0 : ℝ) ≤ 20 * ageFactor age := by linarith
      have c2 : (0 : ℝ) ≤ 20 * ageFactor age * volumeFactor vol :=
        mul_nonneg c1 (by linarith)
      have c3 : (0 : ℝ) ≤ 20 * ageFactor age * volumeFactor vol *
          priceChangeFactor pc := mul_nonneg c2 (by linarith)
      have c4 : (0 : ℝ) ≤ 20 * ageFactor age * volumeFactor vol *
          priceChangeFactor pc *
          socialEngagementFactor (socialEngagement tw re te) :=
        mul_nonneg c3 (by linarith)
      have c5 : (0 : ℝ) ≤ 20 * ageFactor age * volumeFactor vol *
          priceChangeFactor pc *
          socialEngagementFactor (socialEngagement tw re te) *
          sentimentFactor (averageSentiment tw re te) :=
        mul_nonneg c4 (by linarith)
      push_cast
      linarith
    · exact min_le_left _ _
  · intro hc1 hc2 hc3 he hv hp
    subst hv hp
    have hse : socialEngagement tw re te = 0 := by
      unfold socialEngagement
      rw [hc2, hc3, he]
      norm_num
    have havg : averageSentiment tw re te = 0 := by
      unfold averageSentiment totalWeight
      rw [hc1, hc2, hc3]
      norm_num
    have hsf : sentimentFactor 0 = 1 := by unfold sentimentFactor; norm_num
    unfold hypeScore
    rw [hse, havg, hsf, volumeFactor_zero, socialEngagementFactor_zero,
      priceChangeFactor_zero]
    by_cases hage : age ≤ 165 / 4
    · rw [if_pos hage]
      have hAlo : 5 / 8 ≤ ageFactor age := by
        unfold ageFactor
        have hy : (5 : ℝ) / 8 ≤ 2 - age / 30 := by linarith
        exact le_max_of_le_right (le_min (by norm_num) hy)
      have hfl : mathRoundR (20 * ageFactor age * (2 / 10) * 1 * (2 / 10) * 1)
          = 1 := by
        unfold mathRoundR
        rw [Int.floor_eq_iff]
        constructor
        · push_cast; linarith
        · push_cast; linarith [hA.2]
      rw [hfl]
      norm_num
    · rw [if_neg hage]
      push_neg at hage
      have hAhi : ageFactor age < 5 / 8 := by
        unfold ageFactor
        have hy : 2 - age / 30 < 5 / 8 := by linarith
        have hm : min (15 / 10 : ℝ) (2 - age / 30) < 5 / 8 :=
          lt_of_le_of_lt (min_le_right _ _) hy
        exact max_lt (by norm_num) hm
      have hfl : mathRoundR (20 * ageFactor age * (2 / 10) * 1 * (2 / 10) * 1)
          = 0 := by
        unfold mathRoundR
        rw [Int.floor_eq_iff]
        constructor
        · push_cast; linarith [hA.1]
        · push_cast; linarith
      rw [hfl]
      norm_num

/-- Witness for C2 (amended) at a concrete input. -/
theorem hypeScore_range_and_zero_input_witness :
    (0 ≤ hypeScore 60 0 0 ⟨0, 0, 0⟩ ⟨0, 0⟩ ⟨0, 0⟩ ∧
      hypeScore 60 0 0 ⟨0, 0, 0⟩ ⟨0, 0⟩ ⟨0, 0⟩ ≤ 100) ∧
    ((⟨0, 0, 0⟩ : TwitterData).count = 0 → (⟨0, 0⟩ : RedditData).count = 0 →
      (⟨0, 0⟩ : TelegramData).count = 0 →
      (⟨0, 0, 0⟩ : TwitterData).engagement = 0 → (0 : ℝ) = 0 → (0 : ℝ) = 0 →
      hypeScore 60 0 0 ⟨0, 0, 0⟩ ⟨0, 0⟩ ⟨0, 0⟩ =
        if (60 : ℝ) ≤ 165 / 4 then 1 else 0) :=
  hypeScore_range_and_zero_input 60 0 0 ⟨0, 0, 0⟩ ⟨0, 0⟩ ⟨0, 0⟩
    (by norm_num) (by norm_num) (by norm_num) (by norm_num) (by norm_num)
    (by norm_num)

/-! ## src/functions/getPortfolioStrategy.js — per-token scoring factors -/

/-- The market data consumed by `calculateMarketFactor`. -/
structure MarketMetrics where
  volume24h : ℝ
  priceChange24h : ℝ
  liquidity : ℝ

/-- `calculateNoveltyFactor` (src/functions/getPortfolioStrategy.js,
lines 132-149), as a function of the token age in days. -/
noncomputable def calculateNoveltyFactor (ageInDays : ℝ) : ℝ :=
  if ageInDays < 1 then 1
  else if ageInDays < 7 then 8 / 10
  else if ageInDays < 30 then 6 / 10
  else if ageInDays < 90 then 4 / 10
  else 2 / 10

/-- `calculateMarketFactor` (src/functions/getPortfolioStrategy.js,
lines 156-170): weighted blend of the price-change, volume and liquidity
factors. -/
noncomputable def calculateMarketFactor (marketData : MarketMetrics) : ℝ :=
  (if 0 < marketData.priceChange24h then
      min 1 (marketData.priceChange24h / 100) + 5 / 10
    else max 0 (5 / 10 - |marketData.priceChange24h| / 100)) * (4 / 10) +
  min 1 (Real.logb 10 (marketData.volume24h + 1) / 6) * (3 / 10) +
  min 1 (Real.logb 10 (marketData.liquidity + 1) / 6) * (3 / 10)

/-- `calculateRiskAdjustedScore` (src/functions/getPortfolioStrategy.js,
lines 179-185). -/
noncomputable def calculateRiskAdjustedScore
    (safetyScore noveltyFactor marketFactor : ℝ) : ℝ :=
  safetyScore / 100 * (5 / 10) + noveltyFactor * (25 / 100) +
    marketFactor * (25 / 100)

/-- `calculateSocialScore` (src/functions/getPortfolioStrategy.js,
lines 192-210); `avg_sentiment` is optional (SQL `AVG` over no rows), and a
zero sentiment is falsy in JavaScript, giving the same 0.5 default. -/
noncomputable def calculateSocialScore
    (total_mentions total_engagement : ℝ) (avg_sentiment : Option ℝ) : ℝ :=
  if total_mentions = 0 then 3 / 10
  else
    min 1 (Real.logb 10 (total_mentions + 1) / 3) * (4 / 10) +
    min 1 (Real.logb 10 (total_engagement + 1) / 4) * (3 / 10) +
    (match avg_sentiment with
      | some s => if s = 0 then 5 / 10 else (s + 1) / 2
      | none => 5 / 10) * (3 / 10)

/-- `calculateMemeScore` (src/functions/getPortfolioStrategy.js,
lines 217-232), as a function of the correlation scores. -/
noncomputable def calculateMemeScore (correlationScores : List ℝ) : ℝ :=
  if correlationScores = [] then 2 / 10
  else min 1 (correlationScores.sum / (correlationScores.length : ℝ) +
    min (3 / 10) ((correlationScores.length : ℝ) * (5 / 100)))

/-- The final opportunity score of the handler
(src/functions/getPortfolioStrategy.js, lines 70-74). -/
noncomputable def opportunityScore
    (riskAdjustedScore socialScore memeScore : ℝ) : ℝ :=
  riskAdjustedScore * (4 / 10) + socialScore * (3 / 10) + memeScore * (3 / 10)

/-- Helper: `log10(10^k) = k` at the concrete powers used below. -/
theorem logb_ten_pow (k : ℕ) : Real.logb 10 ((10 : ℝ) ^ k) = k := by
  rw [Real.logb_pow, Real.logb_self_eq_one (by norm_num)]
  norm_num

/-- Helper: bounds of the market factor for non-negative volume and
liquidity. -/
theorem calculateMarketFactor_bounds (m : MarketMetrics)
    (hv : 0 ≤ m.volume24h) (hl : 0 ≤ m.liquidity) :
    0 ≤ calculateMarketFactor m ∧ calculateMarketFactor m ≤ 12 / 10 := by
  unfold calculateMarketFactor
  have hvf0 : 0 ≤ Real.logb 10 (m.volume24h + 1) / 6 :=
    div_nonneg (Real.logb_nonneg (by norm_num) (by linarith)) (by norm_num)
  have hlf0 : 0 ≤ Real.logb 10 (m.liquidity + 1) / 6 :=
    div_nonneg (Real.logb_nonneg (by norm_num) (by linarith)) (by norm_num)
  have hvf : 0 ≤ min 1 (Real.logb 10 (m.volume24h + 1) / 6) ∧
      min 1 (Real.logb 10 (m.volume24h + 1) / 6) ≤ 1 :=
    ⟨le_min (by norm_num) hvf0, min_le_left _ _⟩
  have hlf : 0 ≤ min 1 (Real.logb 10 (m.liquidity + 1) / 6) ∧
      min 1 (Real.logb 10 (m.liquidity + 1) / 6) ≤ 1 :=
    ⟨le_min (by norm_num) hlf0, min_le_left _ _⟩
  have hpcf : 0 ≤ (if 0 < m.priceChange24h then
        min 1 (m.priceChange24h / 100) + 5 / 10
      else max 0 (5 / 10 - |m.priceChange24h| / 100)) ∧
      (if 0 < m.priceChange24h then
        min 1 (m.priceChange24h / 100) + 5 / 10
      else max 0 (5 / 10 - |m.priceChange24h| / 100)) ≤ 15 / 10 := by
    split_ifs with h
    · have h0 : 0 ≤ min 1 (m.priceChange24h / 100) :=
        le_min (by norm_num) (by positivity)
      have h1 : min 1 (m.priceChange24h / 100) ≤ 1 := min_le_left _ _
      constructor <;> linarith
    · have h2 : |m.priceChange24h| / 100 ≥ 0 := by positivity
      exact ⟨le_max_left _ _, max_le (by norm_num) (by linarith)⟩
  constructor <;> nlinarith [hvf.1, hvf.2, hlf.1, hlf.2, hpcf.1, hpcf.2]

/-- Helper: the market factor at +100% price change and 999999
volume/liquidity is exactly 1.2. -/
theorem calculateMarketFactor_concrete :
    calculateMarketFactor ⟨999999, 100, 999999⟩ = 12 / 10 := by
  unfold calculateMarketFactor
  have hlog : Real.logb 10 ((999999 : ℝ) + 1) = 6 := by
    rw [show ((999999 : ℝ) + 1) = (10 : ℝ) ^ (6 : ℕ) by norm_num, logb_ten_pow]
    norm_num
  simp only [hlog]
  norm_num [min_def, max_def]

/-- Helper: the discrete novelty factor always lies in [0.2, 1]. -/
theorem calculateNoveltyFactor_bounds (age : ℝ) :
    2 / 10 ≤ calculateNoveltyFactor age ∧ calculateNoveltyFactor age ≤ 1 := by
  unfold calculateNoveltyFactor
  split_ifs <;> norm_num

/-- Helper: the social score never exceeds 1 when the average sentiment is
at most 1. -/
theorem calculateSocialScore_le_one (mentions engagement : ℝ)
    (sentiment : Option ℝ) (hs : ∀ s ∈ sentiment, s ≤ 1) :
    calculateSocialScore mentions engagement sentiment ≤ 1 := by
  unfold calculateSocialScore
  split_ifs with h
  · norm_num
  · have h1 : min 1 (Real.logb 10 (mentions + 1) / 3) ≤ 1 := min_le_left _ _
    have h2 : min 1 (Real.logb 10 (engagement + 1) / 4) ≤ 1 := min_le_left _ _
    have h3 : (match sentiment with
        | some s => if s = 0 then (5 : ℝ) / 10 else (s + 1) / 2
        | none => 5 / 10) ≤ 1 := by
      match sentiment with
      | none => norm_num
      | some s =>
        have hss := hs s rfl
        dsimp only
        split_ifs <;> linarith
    linarith

/-- Helper: the meme score never exceeds 1. -/
theorem calculateMemeScore_le_one (scores : List ℝ) :
    calculateMemeScore scores ≤ 1 := by
  unfold calculateMemeScore
  split_ifs
  · norm_num
  · exact min_le_left _ _

/-! ## Claim C10 -/

/-- C10: for non-negative volume and liquidity the market factor lies in
[0, 1.2] and exceeds 1 for some inputs (for example +100% price change with
volume and liquidity 999999 it is exactly 1.2); consequently the
risk-adjusted score is bounded by 1.05 (for safety scores in [0, 100]) and
the opportunity score by 1.02, and both bounds are attained above 1, so
none of the three is confined to [0, 1]. -/
theorem calculateMarketFactor_range_not_unit_interval
    (m : MarketMetrics) (safety age mentions engagement : ℝ)
    (sentiment : Option ℝ) (scores : List ℝ)
    (hv : 0 ≤ m.volume24h) (hl : 0 ≤ m.liquidity)
    (hs0 : 0 ≤ safety) (hs1 : safety ≤ 100)
    (hsent : ∀ s ∈ sentiment, s ≤ 1) :
    (0 ≤ calculateMarketFactor m ∧ calculateMarketFactor m ≤ 12 / 10) ∧
    1 < calculateMarketFactor ⟨999999, 100, 999999⟩ ∧
    calculateRiskAdjustedScore safety (calculateNoveltyFactor age)
      (calculateMarketFactor m) ≤ 105 / 100 ∧
    1 < calculateRiskAdjustedScore 100 (calculateNoveltyFactor 0)
      (calculateMarketFactor ⟨999999, 100, 999999⟩) ∧
    opportunityScore
      (calculateRiskAdjustedScore safety (calculateNoveltyFactor age)
        (calculateMarketFactor m))
      (calculateSocialScore mentions engagement sentiment)
      (calculateMemeScore scores) ≤ 102 / 100 ∧
    1 < opportunityScore
      (calculateRiskAdjustedScore 100 (calculateNoveltyFactor 0)
        (calculateMarketFactor ⟨999999, 100, 999999⟩))
      (calculateSocialScore 999 9999 (some 1)) (calculateMemeScore [1]) := by
  obtain ⟨hmf0, hmf1⟩ := calculateMarketFactor_bounds m hv hl
  have hnov := calculateNoveltyFactor_bounds age
  have hnov0 : calculateNoveltyFactor 0 = 1 := by
    unfold calculateNoveltyFactor
    rw [if_pos (by norm_num : (0 : ℝ) < 1)]
  have hrisk : calculateRiskAdjustedScore safety (calculateNoveltyFactor age)
      (calculateMarketFactor m) ≤ 105 / 100 := by
    unfold calculateRiskAdjustedScore
    have : safety / 100 ≤ 1 := by linarith
    linarith [hnov.2]
  have hriskc : calculateRiskAdjustedScore 100 (calculateNoveltyFactor 0)
      (calculateMarketFactor ⟨999999, 100, 999999⟩) = 21 / 20 := by
    rw [hnov0, calculateMarketFactor_concrete]
    unfold calculateRiskAdjustedScore
    norm_num
  have hsoc := calculateSocialScore_le_one mentions engagement sentiment hsent
  have hsocc : calculateSocialScore 999 9999 (some 1) = 1 := by
    unfold calculateSocialScore
    rw [if_neg (by norm_num : ¬(999 : ℝ) = 0)]
    have hl3 : Real.logb 10 ((999 : ℝ) + 1) = 3 := by
      rw [show ((999 : ℝ) + 1) = (10 : ℝ) ^ (3 : ℕ) by norm_num, logb_ten_pow]
      norm_num
    have hl4 : Real.logb 10 ((9999 : ℝ) + 1) = 4 := by
      rw [show ((9999 : ℝ) + 1) = (10 : ℝ) ^ (4 : ℕ) by norm_num, logb_ten_pow]
      norm_num
    rw [hl3, hl4]
    norm_num [min_def]
  have hmeme := calculateMemeScore_le_one scores
  have hmemec : calculateMemeScore [1] = 1 := by
    unfold calculateMemeScore
    rw [if_neg (by simp : ¬([1] : List ℝ) = [])]
    norm_num [min_def]
  refine ⟨⟨hmf0, hmf1⟩, ?_, hrisk, ?_, ?_, ?_⟩
  · rw [calculateMarketFactor_concrete]; norm_num
  · rw [hriskc]; norm_num
  · unfold opportunityScore
    linarith
  · rw [hriskc, hsocc, hmemec]
    unfold opportunityScore
    norm_num

/-- Witness for C10 at a concrete input. -/
theorem calculateMarketFactor_range_not_unit_interval_witness :
    (0 ≤ calculateMarketFactor ⟨0, 0, 0⟩ ∧
      calculateMarketFactor ⟨0, 0, 0⟩ ≤ 12 / 10) ∧
    1 < calculateMarketFactor ⟨999999, 100, 999999⟩ ∧
    calculateRiskAdjustedScore 70 (calculateNoveltyFactor 5)
      (calculateMarketFactor ⟨0, 0, 0⟩) ≤ 105 / 100 ∧
    1 < calculateRiskAdjustedScore 100 (calculateNoveltyFactor 0)
      (calculateMarketFactor ⟨999999, 100, 999999⟩) ∧
    opportunityScore
      (calculateRiskAdjustedScore 70 (calculateNoveltyFactor 5)
        (calculateMarketFactor ⟨0, 0, 0⟩))
      (calculateSocialScore 0 0 none) (calculateMemeScore []) ≤ 102 / 100 ∧
    1 < opportunityScore
      (calculateRiskAdjustedScore 100 (calculateNoveltyFactor 0)
        (calculateMarketFactor ⟨999999, 100, 999999⟩))
      (calculateSocialScore 999 9999 (some 1)) (calculateMemeScore [1]) :=
  calculateMarketFactor_range_not_unit_interval ⟨0, 0, 0⟩ 70 5 0 0 none []
    (by norm_num) (by norm_num) (by norm_num) (by norm_num) (by simp)
